import Mathlib

/-!
# Verification of the NYX AWS permission probe engine

A shallow embedding of the core decision logic of
`nyx_cloud_scanner_aws.py` (class `AWSKeyValidator`): the operation
weight catalogue, adaptive/optimized timeout selection, exponential
backoff, the probe cache with its TTL, the per-operation probe routine
`check_service`, the scan driver `check_service_permissions`, account
categorisation, liveness-error classification, and the attack-flow
analyzer.  Remote I/O is abstracted as an oracle (`remote_success` on a
probe call); printing, Telegram delivery, and the boto3 client plumbing
carry no decision logic and are not modelled.  Python floats that only
carry exact small quantities (timeouts, weights, backoff) are modelled
as `ℚ`/`Int`/`Nat`; timestamps are `Int`.
-/

namespace Nyx

/-! ## Configuration constants (AWSKeyValidator.__init__, lines 363-372) -/

def base_timeout : Nat := 3
def critical_timeout : Nat := 15
def max_timeout : Nat := 30
def retry_attempts : Nat := 3
def backoff_multiplier : ℚ := 3 / 2
def cache_ttl : Nat := 300

/-! ## String helpers: Python's substring test `needle in hay` -/

/-- `charsStartWith n h` is true when `n` is an initial segment of `h`. -/
def charsStartWith : List Char → List Char → Bool
  | [], _ => true
  | _ :: _, [] => false
  | a :: as, b :: bs => a == b && charsStartWith as bs

/-- `charsHasSub n h` is true when `n` occurs contiguously inside `h`. -/
def charsHasSub (needle : List Char) : List Char → Bool
  | [] => charsStartWith needle []
  | b :: bs => charsStartWith needle (b :: bs) || charsHasSub needle bs

/-- Python's `needle in hay` on strings. -/
def strHasSub (needle hay : String) : Bool :=
  charsHasSub needle.toList hay.toList

/-! ## The operation weight catalogue (`self.service_scores`, lines 493-599).
Python dict semantics: a key written twice keeps its last value, so
`systems_manager_parameters`, written with 30 at line 557 and with 10 at
line 587, maps to 10. -/

def service_scores : List (String × Nat) :=
  [("iam_create_user", 60), ("iam_create_role", 60),
   ("iam_attach_user_policy", 55), ("iam_attach_role_policy", 55),
   ("iam_create_access_key", 50), ("iam_put_user_policy", 55),
   ("iam_create_login_profile", 50), ("iam_update_login_profile", 45),
   ("iam_put_role_policy", 55), ("iam_update_assume_role_policy", 50),
   ("iam_tag_role", 40), ("iam_untag_role", 40), ("iam_pass_role", 45),
   ("sts_assume_role", 50),
   ("secrets_manager_create_secret", 50), ("secrets_manager_update_secret", 45),
   ("secrets_manager_delete_secret", 40), ("secrets_manager_restore_secret", 35),
   ("secrets_manager_rotate_secret", 40),
   ("s3_put_object", 45), ("s3_create_bucket", 40), ("s3_delete_bucket", 35),
   ("s3_get_object", 35), ("s3_get_object_acl", 30), ("s3_put_object_acl", 35),
   ("s3_put_bucket_policy", 40), ("s3_put_bucket_acl", 35),
   ("ec2_run_instances", 45), ("ec2_create_key_pair", 40),
   ("ec2_start_instances", 45), ("ec2_authorize_security_group_ingress", 40),
   ("ec2_create_security_group", 40), ("ec2_create_image", 45),
   ("ec2_modify_instance_attribute", 40), ("ec2_modify_volume", 35),
   ("ec2_create_tags", 30), ("ec2_snapshots", 20),
   ("lambda_update_function_code", 45), ("lambda_delete_function", 35),
   ("lambda_get_function", 25), ("lambda_update_function_configuration", 40),
   ("lambda_add_permission", 45), ("lambda_publish_version", 40),
   ("lambda_create_layer_version", 50), ("lambda_create_alias", 35),
   ("lambda_update_alias", 30), ("lambda_delete_alias", 25),
   ("lambda_get_layer_version", 20), ("lambda_delete_layer_version", 30),
   ("secrets_manager_secrets", 45), ("s3_objects", 35),
   ("systems_manager_commands", 35), ("rds_snapshots", 15),
   ("rds_create_db_snapshot", 40), ("rds_start_export_task", 45),
   ("rds_copy_db_snapshot", 35), ("rds_modify_db_instance", 40),
   ("rds_modify_db_cluster", 40), ("rds_create_db_instance", 45),
   ("rds_create_db_cluster", 45), ("systems_manager_parameters", 10),
   ("systems_manager_send_command", 40), ("systems_manager_start_session", 45),
   ("systems_manager_terminate_session", 25), ("systems_manager_create_document", 45),
   ("systems_manager_update_document", 40), ("systems_manager_delete_document", 35),
   ("ec2_instances", 30), ("s3_buckets", 30), ("ec2_volumes", 25),
   ("lambda_create_function", 25), ("kms_keys", 25), ("rds_instances", 25),
   ("rds_clusters", 25),
   ("iam_attach_group_policy", 20), ("iam_add_user_to_group", 20),
   ("lambda_invoke_function", 20), ("iam_create_group", 20),
   ("iam_users", 15), ("lambda_functions", 15),
   ("iam_groups", 10), ("ec2_key_pairs", 10), ("ec2_images", 10),
   ("ec2_security_groups", 10), ("kms_aliases", 10),
   ("kms_create_key", 40), ("kms_put_key_policy", 50),
   ("cloudtrail_delete_trail", 60), ("cloudtrail_stop_logging", 55),
   ("cloudtrail_put_event_selectors", 50), ("cloudwatch_logs_delete_log_group", 50),
   ("cloudwatch_logs_stop_logging", 45), ("cloudwatch_logs_put_retention_policy", 40),
   ("cloudwatch_logs_delete_log_stream", 35), ("cloudwatch_delete_logs", 30)]

/-- `self.service_scores.get(service_name, 0)` (line 1186). -/
def lookup_score (service_name : String) : Nat :=
  match List.lookup service_name service_scores with
  | some s => s
  | none => 0

/-! ## Timeout selection and backoff -/

/-- `_get_adaptive_timeout` (lines 672-683).  The Python default for
`operation_type` is `"read"`; callers in the modelled code rely on it. -/
def get_adaptive_timeout (service_name : String) (operation_type : String) : Nat :=
  if operation_type == "write" || strHasSub "create" service_name
      || strHasSub "delete" service_name then
    critical_timeout
  else if ["list", "describe", "get"].any (fun k => strHasSub k service_name) then
    base_timeout
  else
    min (base_timeout * 2) max_timeout

/-- `_calculate_backoff_delay` (lines 685-687):
`min(base_timeout * backoff_multiplier ** attempt, max_timeout)`. -/
def calculate_backoff_delay (attempt : Nat) : ℚ :=
  min ((base_timeout : ℚ) * backoff_multiplier ^ attempt) (max_timeout : ℚ)

/-- Python's `int(q)`: truncation toward zero. -/
def pyInt (q : ℚ) : Int :=
  if q < 0 then -(⌊-q⌋) else ⌊q⌋

/-- `_get_optimized_timeout` (lines 717-728): with no recorded samples it
falls back to `_get_adaptive_timeout(service_name)` (default
`operation_type="read"`), otherwise `min(int(avg_time * 3), max_timeout)`. -/
def get_optimized_timeout (stats : List (String × List ℚ)) (service_name : String) : Int :=
  match List.lookup service_name stats with
  | none => (get_adaptive_timeout service_name "read" : Int)
  | some recent_times =>
    if recent_times.isEmpty then
      (get_adaptive_timeout service_name "read" : Int)
    else
      min (pyInt ((recent_times.sum / (recent_times.length : ℚ)) * 3)) (max_timeout : Int)

/-! ## Probe cache and engine state -/

/-- One `{'accessible': _, 'score': _}` record (lines 1187, 1206). -/
structure ProbeResult where
  accessible : Bool
  score : Nat
deriving DecidableEq

/-- One `service_cache` entry (lines 1190-1194, 1209-1213); the cached
human description only feeds `print` and is not modelled. -/
structure CacheEntry where
  result : ProbeResult
  timestamp : Int
deriving DecidableEq

/-- Ordered association list update with Python-dict semantics: replace in
place when the key exists, append otherwise. -/
def alist_insert {α : Type} (l : List (String × α)) (k : String) (v : α) :
    List (String × α) :=
  match l with
  | [] => [(k, v)]
  | (k', v') :: t => if k' == k then (k, v) :: t else (k', v') :: alist_insert t k v

/-- `_is_cache_valid` (lines 689-695). -/
def is_cache_valid (cache : List (String × CacheEntry)) (now : Int)
    (service_name : String) : Bool :=
  match List.lookup service_name cache with
  | none => false
  | some e => decide (now - e.timestamp < (cache_ttl : Int))

/-- The mutable state threaded through a scan: `self.service_cache`,
`self.performance_stats`, and the `results` / `total_score` locals of
`check_service_permissions`. -/
structure EngineState where
  service_cache : List (String × CacheEntry)
  response_times : List (String × List ℚ)
  total_requests : Nat
  successful_requests : Nat
  failed_requests : Nat
  results : List (String × ProbeResult)
  total_score : Nat

def init_state : EngineState := ⟨[], [], 0, 0, 0, [], 0⟩

/-- `_update_performance_stats` (lines 697-715): bump the counters, append
the sample, and trim the per-operation history to the last 10 entries. -/
def update_performance_stats (st : EngineState) (service_name : String)
    (response_time : ℚ) (success : Bool) : EngineState :=
  let times :=
    (match List.lookup service_name st.response_times with
     | none => []
     | some ts => ts) ++ [response_time]
  let times := if times.length > 10 then times.drop (times.length - 10) else times
  { st with
    total_requests := st.total_requests + 1
    successful_requests := st.successful_requests + (if success then 1 else 0)
    failed_requests := st.failed_requests + (if success then 0 else 1)
    response_times := alist_insert st.response_times service_name times }

/-- The inputs of one `check_service` call (lines 1143-1217).  `now` is the
wall clock during the call; `elapsed` the measured response time;
`remote_success` abstracts whether the remote check ultimately succeeds
within the retry loop (exhausting `retry_attempts` raises, i.e. `false`). -/
structure ProbeCall where
  service_name : String
  now : Int
  elapsed : ℚ
  remote_success : Bool

/-- What one `check_service` call produces: the updated state, the score it
returns to the `total_score +=` accumulation, and whether the remote
platform was contacted at all. -/
structure ProbeReturn where
  state : EngineState
  score : Nat
  used_remote : Bool

/-- `check_service` (lines 1143-1217).  A valid cache entry is returned
as-is without contacting the remote platform; otherwise the remote check
runs (the timeout passed to the boto3 config, `_get_optimized_timeout`,
does not alter which outcome is recorded and is verified separately):
success records `{'accessible': True, 'score': weight}`, any exhausted
failure records `{'accessible': False, 'score': 0}`, and either outcome is
written to the cache with the current timestamp. -/
def check_service (st : EngineState) (c : ProbeCall) : ProbeReturn :=
  if is_cache_valid st.service_cache c.now c.service_name then
    -- the lookup succeeds whenever the cache is valid
    match List.lookup c.service_name st.service_cache with
    | some e =>
      ⟨{ st with results := alist_insert st.results c.service_name e.result },
       e.result.score, false⟩
    | none => ⟨st, 0, false⟩
  else if c.remote_success then
    let st1 := update_performance_stats st c.service_name c.elapsed true
    let score := lookup_score c.service_name
    ⟨{ st1 with
        service_cache :=
          alist_insert st1.service_cache c.service_name ⟨⟨true, score⟩, c.now⟩
        results := alist_insert st1.results c.service_name ⟨true, score⟩ },
     score, true⟩
  else
    let st1 := update_performance_stats st c.service_name c.elapsed false
    ⟨{ st1 with
        service_cache :=
          alist_insert st1.service_cache c.service_name ⟨⟨false, 0⟩, c.now⟩
        results := alist_insert st1.results c.service_name ⟨false, 0⟩ },
     0, true⟩

/-- The probe loop of `check_service_permissions`: each block line reads
`total_score += check_service(...)` (lines 1226-1371). -/
def run_probes (st : EngineState) : List ProbeCall → EngineState
  | [] => st
  | c :: rest =>
    let r := check_service st c
    run_probes { r.state with total_score := r.state.total_score + r.score } rest

/-! ## Flow selection (`_determine_flows_to_check`, lines 1027-1060) -/

structure Filters where
  critical : Bool
  high : Bool
  medium : Bool
  low : Bool

def all_flows_critical : List String :=
  ["IAM User Escalation", "IAM Role Escalation", "Secrets Manager",
   "Systems Manager", "S3 Data Exfiltration", "EC2 Management Attack",
   "Lambda Privilege Escalation", "RDS Data Extraction",
   "Log Deletion Attack", "Forensic Cleanup Attack"]

def all_flows_high : List String := ["Security & Compliance"]

def all_flows_medium : List String := ["IAM Groups Escalation"]

def all_flows_low : List String := []

def determine_flows_to_check (f : Filters) : List String :=
  if !(f.critical || f.high || f.medium || f.low) then
    all_flows_critical ++ all_flows_high ++ all_flows_medium ++ all_flows_low
  else
    let flows :=
      (if f.critical then all_flows_critical else [])
        ++ (if f.high then all_flows_high else [])
        ++ (if f.medium then all_flows_medium else [])
        ++ (if f.low then all_flows_low else [])
    -- the second guard at line 1057 re-checks the same four flags
    if !(f.critical || f.high || f.medium || f.low) then
      all_flows_critical ++ all_flows_high ++ all_flows_medium ++ all_flows_low
    else flows

/-- The per-flow `check_service` call sequences of
`check_service_permissions`, in source order (lines 1224-1374). -/
def flow_blocks : List (String × List String) :=
  [("IAM User Escalation",
    ["iam_create_user", "iam_attach_user_policy", "iam_create_access_key",
     "iam_put_user_policy", "iam_create_login_profile", "iam_update_login_profile"]),
   ("IAM Role Escalation",
    ["iam_create_role", "iam_attach_role_policy", "sts_assume_role",
     "iam_pass_role", "iam_put_role_policy", "iam_update_assume_role_policy"]),
   ("Secrets Manager",
    ["secrets_manager_secrets", "secrets_manager_create_secret",
     "secrets_manager_update_secret", "secrets_manager_delete_secret"]),
   ("Systems Manager",
    ["systems_manager_commands", "systems_manager_parameters",
     "systems_manager_send_command", "systems_manager_start_session",
     "systems_manager_terminate_session"]),
   ("S3 Data Exfiltration",
    ["s3_buckets", "s3_objects", "s3_put_object", "s3_create_bucket",
     "s3_delete_bucket"]),
   ("RDS Data Extraction",
    ["rds_instances", "rds_snapshots", "rds_clusters", "rds_create_db_snapshot",
     "rds_start_export_task", "rds_copy_db_snapshot"]),
   ("EC2 Management Attack",
    ["ec2_instances", "ec2_volumes", "ec2_snapshots", "ec2_run_instances",
     "ec2_create_key_pair", "ec2_start_instances",
     "ec2_authorize_security_group_ingress"]),
   ("Lambda Privilege Escalation",
    ["lambda_functions", "lambda_create_function", "lambda_invoke_function",
     "lambda_update_function_code", "lambda_delete_function", "lambda_get_function",
     "lambda_update_function_configuration", "lambda_add_permission",
     "lambda_publish_version", "lambda_create_layer_version"]),
   ("Security & Compliance",
    ["kms_keys", "kms_aliases", "kms_create_key", "kms_put_key_policy"]),
   ("IAM Groups Escalation",
    ["iam_users", "iam_groups", "iam_create_group", "iam_attach_group_policy",
     "iam_add_user_to_group"]),
   ("Log Deletion Attack",
    ["cloudtrail_delete_trail", "cloudtrail_stop_logging",
     "cloudtrail_put_event_selectors", "cloudwatch_logs_delete_log_group",
     "cloudwatch_logs_stop_logging", "cloudwatch_logs_put_retention_policy",
     "cloudwatch_logs_delete_log_stream", "cloudwatch_delete_logs"]),
   ("Forensic Cleanup Attack",
    ["secrets_manager_delete_secret", "s3_delete_bucket", "lambda_delete_function"])]

/-- The operation identifiers probed by a run, in execution order: each
block guarded by `if 'Flow' in flows_to_check` (lines 1224, 1237, ...). -/
def probe_sequence (flows_to_check : List String) : List String :=
  flow_blocks.foldr
    (fun b acc => if b.1 ∈ flows_to_check then b.2 ++ acc else acc) []

/-- Build the probe calls of one scan.  The embedding places every call
at clock 0 with a unit response time: the wall clock and the measured
elapsed times never influence which outcome is recorded (a later duplicate
probe is answered from the cache either way, with the same result). -/
def mk_calls (names : List String) (o : String → Bool) : List ProbeCall :=
  names.map (fun m => ⟨m, 0, 1, o m⟩)

/-- `check_service_permissions` (lines 1062-1389), given the per-operation
remote outcomes `o`.  Credential plumbing, printing, and the
`check_escalation_block` progress messages carry no decision logic for the
returned `results`/`total_score` and are not modelled. -/
def check_service_permissions (f : Filters) (o : String → Bool) : EngineState :=
  run_probes init_state (mk_calls (probe_sequence (determine_flows_to_check f)) o)

/-- The weight of the operations recorded as accessible in a report:
`sum of service_scores over {name | results[name].accessible}`. -/
def accessible_weight_total (results : List (String × ProbeResult)) : Nat :=
  results.foldr (fun p acc => (if p.2.accessible then lookup_score p.1 else 0) + acc) 0

/-! ## Account categories (lines 664-670, 1422-1427) -/

def account_categories : List (String × Nat) :=
  [("critical", 50), ("high", 30), ("medium", 15), ("low", 5), ("minimal", 0)]

/-- `get_account_category` (lines 1422-1427): first bucket, in declared
order, whose `min_score` is at most the score; `'minimal'` otherwise. -/
def get_account_category (score : Int) : String :=
  match account_categories.find? (fun c => decide ((c.2 : Int) ≤ score)) with
  | some c => c.1
  | none => "minimal"

/-! ## Liveness-error classification (`_quick_liveness_check`, lines 786-822) -/

structure LivenessOutcome where
  alive : Bool
  error : String
deriving DecidableEq

def invalid_credential_codes : List String :=
  ["InvalidUserID.NotFound", "SignatureDoesNotMatch", "InvalidAccessKeyId"]

def throttling_codes : List String :=
  ["RequestLimitExceeded", "ThrottlingException"]

def invalid_credentials_message : String := "Неверные учетные данные"

/-- The `except ClientError` branch of `_quick_liveness_check`
(lines 813-820), as a function of the remote error code. -/
def classify_liveness_error (error_code : String) : LivenessOutcome :=
  if invalid_credential_codes.contains error_code then
    ⟨false, invalid_credentials_message⟩
  else if throttling_codes.contains error_code then
    ⟨true, "Rate limit (ключ живой, но ограничен)"⟩
  else
    ⟨false, "AWS ошибка: " ++ error_code⟩

/-! ## Flow analyzer (`analyze_attack_flows`, lines 913-986) -/

/-- One entry of `escalation_result['roles_analysis']`: the attached policy
ARNs and the precomputed escalation score of a discovered role. -/
structure RoleData where
  attached_policies : List String
  escalation_score : Nat
deriving DecidableEq

/-- `escalation_result`: `none` models the `'error' in escalation_result`
case (line 938), in which no role is matched. -/
abbrev RolesAnalysis := List (String × RoleData)

structure RoleMatch where
  role_name : String
  policy_arn : String
  escalation_score : Nat
deriving DecidableEq

/-- The `available_roles` triple-nested loop (lines 937-947): every
discovered role, attached policy, and flow marker with
`escalation_role in policy_arn` contributes one match. -/
def matched_escalation_roles (escalation_result : Option RolesAnalysis)
    (escalation_roles : List String) : List RoleMatch :=
  match escalation_result with
  | none => []
  | some roles =>
    roles.flatMap (fun r =>
      r.2.attached_policies.flatMap (fun arn =>
        (escalation_roles.filter (fun marker => strHasSub marker arn)).map
          (fun _marker => ⟨r.1, arn, r.2.escalation_score⟩)))

/-- The per-flow record assembled by `analyze_attack_flows`
(lines 949-981). -/
structure FlowStatus where
  available_services : List String
  missing_services : List String
  available_escalation_roles : List RoleMatch
  completion_percentage : Nat
  status : String
deriving DecidableEq

/-- The body of the `for flow_key, flow_info in self.attack_flows.items()`
loop (lines 928-981) for one flow.  `completion_percentage` is
`int((len(available)/len(required))*100) if required else 0`; for the list
lengths that occur the float arithmetic is exact enough that `int(...)`
is the floor, i.e. natural division. -/
def analyze_flow (required_services escalation_roles accessible_services : List String)
    (escalation_result : Option RolesAnalysis) : FlowStatus :=
  let available := required_services.filter (fun s => accessible_services.contains s)
  let missing := required_services.filter (fun s => !accessible_services.contains s)
  let available_roles := matched_escalation_roles escalation_result escalation_roles
  let completion :=
    if required_services.isEmpty then 0
    else (100 * available.length) / required_services.length
  let status :=
    if available.length = required_services.length then "READY"
    else if 0 < available.length ∧ available_roles ≠ [] then "ESCALATION_NEEDED"
    else if 0 < available.length then "BLOCKED_NO_ESCALATION"
    else "BLOCKED"
  ⟨available, missing, available_roles, completion, status⟩

/-! ## Specification-described timeout selection.

The spec claims the probe's timeout classifies an identifier as
write-like when it contains any of create/delete/update/attach/put.  The
code computes exactly that classification into `operation_type`
(line 1154) but then calls `_get_optimized_timeout(service_name)`
(line 1157), which never receives it: the fixed timeout actually used
only tests create/delete.  The two definitions below state, for
comparison with `get_optimized_timeout`, (a) the claimed classifier and
(b) the classifier the code actually applies. -/

/-- The claim's classifier: larger fixed timeout for identifiers implying
a write (create/delete/update/attach/put). -/
def claimed_fixed_timeout (service_name : String) : Int :=
  if ["create", "delete", "update", "attach", "put"].any
      (fun k => strHasSub k service_name) then
    (critical_timeout : Int)
  else if ["list", "describe", "get"].any (fun k => strHasSub k service_name) then
    (base_timeout : Int)
  else
    (min (base_timeout * 2) max_timeout : Nat)

/-- The fixed timeout the code actually applies on the probe path:
`_get_adaptive_timeout(service_name)` with the defaulted
`operation_type="read"`, so only create/delete reach the large timeout. -/
def amended_fixed_timeout (service_name : String) : Int :=
  if strHasSub "create" service_name || strHasSub "delete" service_name then
    (critical_timeout : Int)
  else if ["list", "describe", "get"].any (fun k => strHasSub k service_name) then
    (base_timeout : Int)
  else
    (min (base_timeout * 2) max_timeout : Nat)

/-- The amended timeout selection: the code's fixed classifier, overridden
by `min(int(3 * average), max_timeout)` when at least one sample exists. -/
def amended_optimized_timeout (stats : List (String × List ℚ))
    (service_name : String) : Int :=
  match List.lookup service_name stats with
  | none => amended_fixed_timeout service_name
  | some ts =>
    if ts.isEmpty then amended_fixed_timeout service_name
    else min (pyInt ((ts.sum / (ts.length : ℚ)) * 3)) (max_timeout : Int)

/-! ## Summary quantities used to state the scoring claims -/

/-- The score contributed by each probe call in sequence, counting
multiplicity: each `total_score += check_service(...)` adds the weight of
a remotely-successful probe (a cached duplicate re-adds the cached
score). -/
def expected_total : List ProbeCall → Nat
  | [] => 0
  | c :: rest =>
    (if c.remote_success then lookup_score c.service_name else 0) + expected_total rest

/-- The weight sum over a list of operation identifiers filtered by a
per-operation outcome assignment. -/
def outcome_total (o : String → Bool) : List String → Nat
  | [] => 0
  | m :: rest => (if o m then lookup_score m else 0) + outcome_total o rest

/-- Toggle one operation's remote outcome inside an outcome assignment. -/
def override (o : String → Bool) (n : String) (b : Bool) : String → Bool :=
  fun m => if m == n then b else o m

/-- Invariant of a clock-0 scan: an operation whose remote outcome is a
failure is only ever recorded - in the cache and in the report - as the
failure outcome `{'accessible': False, 'score': 0}`. -/
def zero_failure_invariant (o : String → Bool) (st : EngineState) : Prop :=
  ∀ n, o n = false →
    (List.lookup n st.service_cache = none
      ∨ List.lookup n st.service_cache = some ⟨⟨false, 0⟩, 0⟩)
    ∧ (List.lookup n st.results = none ∨ List.lookup n st.results = some ⟨false, 0⟩)

/-! ## Supporting lemmas -/

theorem lookup_alist_insert_self {α : Type} (l : List (String × α)) (k : String) (v : α) :
    List.lookup k (alist_insert l k v) = some v := by
  induction l with
  | nil => simp [alist_insert, List.lookup]
  | cons p t ih =>
    obtain ⟨k', v'⟩ := p
    by_cases h : k' = k
    · subst h
      simp [alist_insert, List.lookup]
    · simp only [alist_insert, beq_iff_eq, h, if_false, List.lookup]
      have h2 : (k == k') = false := beq_eq_false_iff_ne.mpr (Ne.symm h)
      simp [h2, ih]

theorem lookup_alist_insert_ne {α : Type} (l : List (String × α)) (k k' : String) (v : α)
    (h : k' ≠ k) :
    List.lookup k' (alist_insert l k v) = List.lookup k' l := by
  induction l with
  | nil =>
    simp [alist_insert, List.lookup, beq_eq_false_iff_ne.mpr h]
  | cons p t ih =>
    obtain ⟨a, b⟩ := p
    by_cases ha : a = k
    · subst ha
      simp [alist_insert, List.lookup, beq_eq_false_iff_ne.mpr h]
    · simp only [alist_insert, beq_iff_eq, ha, if_false, List.lookup]
      by_cases hb : k' = a
      · subst hb
        simp [List.lookup]
      · have hb2 : (k' == a) = false := beq_eq_false_iff_ne.mpr hb
        simp [List.lookup, hb2, ih]

theorem alist_insert_of_lookup_none {α : Type} (l : List (String × α)) (k : String) (v : α)
    (h : List.lookup k l = none) :
    alist_insert l k v = l ++ [(k, v)] := by
  induction l with
  | nil => simp [alist_insert]
  | cons p t ih =>
    obtain ⟨a, b⟩ := p
    by_cases ha : a = k
    · subst ha
      simp [List.lookup] at h
    · have ha2 : (k == a) = false := beq_eq_false_iff_ne.mpr (Ne.symm ha)
      simp only [List.lookup, ha2] at h
      simp only [alist_insert, beq_iff_eq, ha, if_false, List.cons_append, List.cons.injEq,
        true_and]
      exact ih h

theorem ups_cache (st : EngineState) (n : String) (t : ℚ) (s : Bool) :
    (update_performance_stats st n t s).service_cache = st.service_cache := rfl

theorem ups_results (st : EngineState) (n : String) (t : ℚ) (s : Bool) :
    (update_performance_stats st n t s).results = st.results := rfl

theorem ups_total (st : EngineState) (n : String) (t : ℚ) (s : Bool) :
    (update_performance_stats st n t s).total_score = st.total_score := rfl

theorem check_service_cache_hit (st : EngineState) (c : ProbeCall) (e : CacheEntry)
    (hl : List.lookup c.service_name st.service_cache = some e)
    (ht : c.now - e.timestamp < (cache_ttl : Int)) :
    check_service st c =
      ⟨{ st with results := alist_insert st.results c.service_name e.result },
        e.result.score, false⟩ := by
  have hv : is_cache_valid st.service_cache c.now c.service_name = true := by
    unfold is_cache_valid
    rw [hl]
    simpa using ht
  unfold check_service
  rw [hv, hl]
  rfl

theorem check_service_miss_success (st : EngineState) (c : ProbeCall)
    (hv : is_cache_valid st.service_cache c.now c.service_name = false)
    (ho : c.remote_success = true) :
    check_service st c =
      ⟨{ update_performance_stats st c.service_name c.elapsed true with
          service_cache := alist_insert st.service_cache c.service_name
            ⟨⟨true, lookup_score c.service_name⟩, c.now⟩
          results := alist_insert st.results c.service_name
            ⟨true, lookup_score c.service_name⟩ },
        lookup_score c.service_name, true⟩ := by
  unfold check_service
  rw [hv, ho]
  rfl

theorem check_service_miss_failure (st : EngineState) (c : ProbeCall)
    (hv : is_cache_valid st.service_cache c.now c.service_name = false)
    (ho : c.remote_success = false) :
    check_service st c =
      ⟨{ update_performance_stats st c.service_name c.elapsed false with
          service_cache := alist_insert st.service_cache c.service_name ⟨⟨false, 0⟩, c.now⟩
          results := alist_insert st.results c.service_name ⟨false, 0⟩ },
        0, true⟩ := by
  unfold check_service
  rw [hv, ho]
  rfl

theorem awt_cons (p : String × ProbeResult) (t : List (String × ProbeResult)) :
    accessible_weight_total (p :: t)
      = (if p.2.accessible then lookup_score p.1 else 0) + accessible_weight_total t := rfl

theorem awt_append (l1 l2 : List (String × ProbeResult)) :
    accessible_weight_total (l1 ++ l2)
      = accessible_weight_total l1 + accessible_weight_total l2 := by
  induction l1 with
  | nil => simp [accessible_weight_total]
  | cons p t ih =>
    simp only [List.cons_append, awt_cons, ih]
    omega

theorem run_probes_fresh (calls : List ProbeCall) :
    ∀ st : EngineState,
      (calls.map (fun c => c.service_name)).Nodup →
      (∀ c ∈ calls, List.lookup c.service_name st.service_cache = none
          ∧ List.lookup c.service_name st.results = none) →
      (run_probes st calls).total_score = st.total_score + expected_total calls
      ∧ accessible_weight_total (run_probes st calls).results
          = accessible_weight_total st.results + expected_total calls := by
  induction calls with
  | nil =>
    intro st _ _
    simp [run_probes, expected_total]
  | cons c rest ih =>
    intro st hnd hf
    have hcache : List.lookup c.service_name st.service_cache = none := (hf c (by simp)).1
    have hres : List.lookup c.service_name st.results = none := (hf c (by simp)).2
    have hv : is_cache_valid st.service_cache c.now c.service_name = false := by
      unfold is_cache_valid
      rw [hcache]
    have hnames : c.service_name ∉ rest.map (fun c => c.service_name) := by
      have := hnd
      simp only [List.map_cons, List.nodup_cons] at this
      exact this.1
    have hne : ∀ c' ∈ rest, c'.service_name ≠ c.service_name := by
      intro c' hc' heq
      exact hnames (heq ▸ List.mem_map_of_mem _ hc')
    have hndrest : (rest.map (fun c => c.service_name)).Nodup := by
      have := hnd
      simp only [List.map_cons, List.nodup_cons] at this
      exact this.2
    cases ho : c.remote_success
    · have hstep := check_service_miss_failure st c hv ho
      simp only [run_probes, hstep]
      have hfr : ∀ c' ∈ rest,
          List.lookup c'.service_name (alist_insert st.service_cache c.service_name
            (⟨⟨false, 0⟩, c.now⟩ : CacheEntry)) = none
          ∧ List.lookup c'.service_name (alist_insert st.results c.service_name
            (⟨false, 0⟩ : ProbeResult)) = none := by
        intro c' hc'
        rw [lookup_alist_insert_ne _ _ _ _ (hne c' hc'),
          lookup_alist_insert_ne _ _ _ _ (hne c' hc')]
        exact hf c' (List.mem_cons_of_mem _ hc')
      have hrec := ih
        ⟨alist_insert st.service_cache c.service_name ⟨⟨false, 0⟩, c.now⟩,
         (update_performance_stats st c.service_name c.elapsed false).response_times,
         (update_performance_stats st c.service_name c.elapsed false).total_requests,
         (update_performance_stats st c.service_name c.elapsed false).successful_requests,
         (update_performance_stats st c.service_name c.elapsed false).failed_requests,
         alist_insert st.results c.service_name ⟨false, 0⟩,
         (update_performance_stats st c.service_name c.elapsed false).total_score + 0⟩
        hndrest hfr
      have h1 : (run_probes
          ⟨alist_insert st.service_cache c.service_name ⟨⟨false, 0⟩, c.now⟩,
         (update_performance_stats st c.service_name c.elapsed false).response_times,
         (update_performance_stats st c.service_name c.elapsed false).total_requests,
         (update_performance_stats st c.service_name c.elapsed false).successful_requests,
         (update_performance_stats st c.service_name c.elapsed false).failed_requests,
         alist_insert st.results c.service_name ⟨false, 0⟩,
         (update_performance_stats st c.service_name c.elapsed false).total_score + 0⟩
          rest).total_score
          = (update_performance_stats st c.service_name c.elapsed false).total_score + 0
            + expected_total rest := hrec.1
      have h2 : accessible_weight_total ((run_probes
          ⟨alist_insert st.service_cache c.service_name ⟨⟨false, 0⟩, c.now⟩,
         (update_performance_stats st c.service_name c.elapsed false).response_times,
         (update_performance_stats st c.service_name c.elapsed false).total_requests,
         (update_performance_stats st c.service_name c.elapsed false).successful_requests,
         (update_performance_stats st c.service_name c.elapsed false).failed_requests,
         alist_insert st.results c.service_name ⟨false, 0⟩,
         (update_performance_stats st c.service_name c.elapsed false).total_score + 0⟩
          rest).results)
          = accessible_weight_total
              (alist_insert st.results c.service_name (⟨false, 0⟩ : ProbeResult))
            + expected_total rest := hrec.2
      rw [h1, h2, alist_insert_of_lookup_none _ _ _ hres, awt_append]
      simp [expected_total, ho, awt_cons, accessible_weight_total, ups_total]
    · have hstep := check_service_miss_success st c hv ho
      simp only [run_probes, hstep]
      have hfr : ∀ c' ∈ rest,
          List.lookup c'.service_name (alist_insert st.service_cache c.service_name
            (⟨⟨true, lookup_score c.service_name⟩, c.now⟩ : CacheEntry)) = none
          ∧ List.lookup c'.service_name (alist_insert st.results c.service_name
            (⟨true, lookup_score c.service_name⟩ : ProbeResult)) = none := by
        intro c' hc'
        rw [lookup_alist_insert_ne _ _ _ _ (hne c' hc'),
          lookup_alist_insert_ne _ _ _ _ (hne c' hc')]
        exact hf c' (List.mem_cons_of_mem _ hc')
      have hrec := ih
        ⟨alist_insert st.service_cache c.service_name ⟨⟨true, lookup_score c.service_name⟩, c.now⟩,
         (update_performance_stats st c.service_name c.elapsed true).response_times,
         (update_performance_stats st c.service_name c.elapsed true).total_requests,
         (update_performance_stats st c.service_name c.elapsed true).successful_requests,
         (update_performance_stats st c.service_name c.elapsed true).failed_requests,
         alist_insert st.results c.service_name ⟨true, lookup_score c.service_name⟩,
         (update_performance_stats st c.service_name c.elapsed true).total_score + lookup_score c.service_name⟩
        hndrest hfr
      have h1 : (run_probes
          ⟨alist_insert st.service_cache c.service_name ⟨⟨true, lookup_score c.service_name⟩, c.now⟩,
         (update_performance_stats st c.service_name c.elapsed true).response_times,
         (update_performance_stats st c.service_name c.elapsed true).total_requests,
         (update_performance_stats st c.service_name c.elapsed true).successful_requests,
         (update_performance_stats st c.service_name c.elapsed true).failed_requests,
         alist_insert st.results c.service_name ⟨true, lookup_score c.service_name⟩,
         (update_performance_stats st c.service_name c.elapsed true).total_score + lookup_score c.service_name⟩
          rest).total_score
          = (update_performance_stats st c.service_name c.elapsed true).total_score + lookup_score c.service_name
            + expected_total rest := hrec.1
      have h2 : accessible_weight_total ((run_probes
          ⟨alist_insert st.service_cache c.service_name ⟨⟨true, lookup_score c.service_name⟩, c.now⟩,
         (update_performance_stats st c.service_name c.elapsed true).response_times,
         (update_performance_stats st c.service_name c.elapsed true).total_requests,
         (update_performance_stats st c.service_name c.elapsed true).successful_requests,
         (update_performance_stats st c.service_name c.elapsed true).failed_requests,
         alist_insert st.results c.service_name ⟨true, lookup_score c.service_name⟩,
         (update_performance_stats st c.service_name c.elapsed true).total_score + lookup_score c.service_name⟩
          rest).results)
          = accessible_weight_total
              (alist_insert st.results c.service_name (⟨true, lookup_score c.service_name⟩ : ProbeResult))
            + expected_total rest := hrec.2
      rw [h1, h2, alist_insert_of_lookup_none _ _ _ hres, awt_append]
      simp [expected_total, ho, awt_cons, accessible_weight_total, ups_total]
      omega

theorem map_name_mk_calls (names : List String) (o : String → Bool) :
    (mk_calls names o).map (fun c => c.service_name) = names := by
  induction names with
  | nil => rfl
  | cons m t ih =>
    simp only [mk_calls, List.map_cons]
    simp [mk_calls] at ih
    simp [ih]

theorem expected_total_mk_calls (names : List String) (o : String → Bool) :
    expected_total (mk_calls names o) = outcome_total o names := by
  induction names with
  | nil => rfl
  | cons m t ih => simp [mk_calls, expected_total, outcome_total] at ih ⊢; rw [ih]

theorem outcome_total_congr (o1 o2 : String → Bool) (names : List String)
    (h : ∀ m ∈ names, o1 m = o2 m) :
    outcome_total o1 names = outcome_total o2 names := by
  induction names with
  | nil => rfl
  | cons m t ih =>
    simp only [outcome_total, h m (by simp)]
    rw [ih (fun m' hm' => h m' (List.mem_cons_of_mem _ hm'))]

theorem outcome_total_override (names : List String) (o : String → Bool) (n : String)
    (hnd : names.Nodup) (hmem : n ∈ names) :
    outcome_total (override o n true) names
      = outcome_total (override o n false) names + lookup_score n := by
  induction names with
  | nil => cases hmem
  | cons m t ih =>
    obtain ⟨hmt, hndt⟩ := List.nodup_cons.mp hnd
    by_cases hm : m = n
    · subst hm
      have hnt : m ∉ t := hmt
      have hcong : outcome_total (override o m true) t = outcome_total (override o m false) t := by
        apply outcome_total_congr
        intro m' hm'
        have : m' ≠ m := fun h => hnt (h ▸ hm')
        simp [override, beq_eq_false_iff_ne.mpr this]
      simp only [outcome_total, hcong]
      simp [override]
      omega
    · have hmemt : n ∈ t := by
        rcases List.mem_cons.mp hmem with h | h
        · exact absurd h.symm hm
        · exact h
      have hhead : ∀ b : Bool, override o n b m = o m := by
        intro b
        simp [override, beq_eq_false_iff_ne.mpr hm]
      simp only [outcome_total, hhead]
      rw [ih hndt hmemt]
      omega

theorem check_service_lookup_other (st : EngineState) (c : ProbeCall) (n : String)
    (hne : n ≠ c.service_name) :
    List.lookup n (check_service st c).state.service_cache = List.lookup n st.service_cache
    ∧ List.lookup n (check_service st c).state.results = List.lookup n st.results := by
  unfold check_service
  by_cases hv : is_cache_valid st.service_cache c.now c.service_name = true
  · cases hl : List.lookup c.service_name st.service_cache with
    | none => simp [hv, hl]
    | some e => simp [hv, hl, lookup_alist_insert_ne _ _ _ _ hne]
  · have hv2 : is_cache_valid st.service_cache c.now c.service_name = false :=
      Bool.not_eq_true _ ▸ eq_false_of_ne_true hv
    cases ho : c.remote_success <;>
      simp [hv2, ho, lookup_alist_insert_ne _ _ _ _ hne, ups_cache, ups_results]

theorem check_service_lookup_self (st : EngineState) (c : ProbeCall) :
    (List.lookup c.service_name (check_service st c).state.results).isSome = true := by
  unfold check_service
  by_cases hv : is_cache_valid st.service_cache c.now c.service_name = true
  · have hsome : ∃ e, List.lookup c.service_name st.service_cache = some e := by
      unfold is_cache_valid at hv
      cases hl : List.lookup c.service_name st.service_cache with
      | none => rw [hl] at hv; simp at hv
      | some e => exact ⟨e, rfl⟩
    obtain ⟨e, hl⟩ := hsome
    simp [hv, hl, lookup_alist_insert_self]
  · have hv2 : is_cache_valid st.service_cache c.now c.service_name = false :=
      eq_false_of_ne_true hv
    cases ho : c.remote_success <;> simp [hv2, ho, lookup_alist_insert_self]

theorem run_probes_keeps_some (calls : List ProbeCall) :
    ∀ (st : EngineState) (n : String),
      (List.lookup n st.results).isSome = true →
      (List.lookup n (run_probes st calls).results).isSome = true := by
  induction calls with
  | nil => intro st n h; exact h
  | cons c rest ih =>
    intro st n h
    simp only [run_probes]
    apply ih
    by_cases hne : n = c.service_name
    · subst hne
      exact check_service_lookup_self st c
    · rw [(check_service_lookup_other st c n hne).2]
      exact h

theorem run_probes_covers (names : List String) (o : String → Bool) :
    ∀ (st : EngineState) (n : String), n ∈ names →
      (List.lookup n (run_probes st (mk_calls names o)).results).isSome = true := by
  induction names with
  | nil => intro st n h; cases h
  | cons m t ih =>
    intro st n h
    simp only [mk_calls, List.map_cons, run_probes]
    rcases List.mem_cons.mp h with h | h
    · subst h
      apply run_probes_keeps_some
      exact check_service_lookup_self st ⟨n, 0, 1, o n⟩
    · exact ih _ n h

theorem check_service_zero_invariant (o : String → Bool) (st : EngineState) (m : String)
    (hInv : zero_failure_invariant o st) :
    zero_failure_invariant o (check_service st ⟨m, 0, 1, o m⟩).state := by
  intro n hn
  by_cases hne : n = m
  · subst hne
    rcases (hInv n hn).1 with hc | hc
    · have hv : is_cache_valid st.service_cache 0 n = false := by
        unfold is_cache_valid
        rw [hc]
      have hstep := check_service_miss_failure st ⟨n, 0, 1, o n⟩ hv hn
      rw [hstep]
      exact ⟨Or.inr (lookup_alist_insert_self _ _ _), Or.inr (lookup_alist_insert_self _ _ _)⟩
    · have hstep := check_service_cache_hit st ⟨n, 0, 1, o n⟩ ⟨⟨false, 0⟩, 0⟩ hc
        (show (0 : Int) - (0 : Int) < (cache_ttl : Int) by decide)
      rw [hstep]
      exact ⟨Or.inr hc, Or.inr (lookup_alist_insert_self _ _ _)⟩
  · have hother := check_service_lookup_other st ⟨m, 0, 1, o m⟩ n hne
    rw [hother.1, hother.2]
    exact hInv n hn

theorem run_probes_zero_invariant (names : List String) (o : String → Bool) :
    ∀ st : EngineState, zero_failure_invariant o st →
      zero_failure_invariant o (run_probes st (mk_calls names o)) := by
  induction names with
  | nil => intro st h; exact h
  | cons m t ih =>
    intro st h
    simp only [mk_calls, List.map_cons, run_probes]
    apply ih
    exact check_service_zero_invariant o st m h

theorem aws_error_ne_invalid (code : String) :
    ("AWS ошибка: " ++ code) ≠ invalid_credentials_message := by
  obtain ⟨cd⟩ := code
  intro h
  have h2 : ("AWS ошибка: " ++ String.mk cd).data = invalid_credentials_message.data := by
    rw [h]
  have h3 : 'A' :: 'W' :: 'S' :: ' ' :: 'о' :: 'ш' :: 'и' :: 'б' :: 'к' :: 'а' :: ':' :: ' ' :: cd
      = invalid_credentials_message.data := h2
  have h4 : invalid_credentials_message.data
      = 'Н' :: 'е' :: 'в' :: 'е' :: 'р' :: 'н' :: 'ы' :: 'е' :: ' ' :: 'у' :: 'ч' :: 'е' :: 'т' :: 'н' :: 'ы' :: 'е' :: ' ' :: 'д' :: 'а' :: 'н' :: 'н' :: 'ы' :: 'е' :: [] := rfl
  rw [h4] at h3
  injection h3 with hh _
  exact absurd hh (by decide)

/-! ## The claims -/

set_option maxRecDepth 20000 in
/-- Claim C1 fails as stated: with the critical filter the scan probes secrets_manager_delete_secret, s3_delete_bucket and lambda_delete_function twice each (in their own flow and again in Forensic Cleanup Attack), so in the run where every remote check succeeds the returned total (2395) exceeds the weight sum of the operations recorded as accessible (2285) by the three duplicated weights. -/
theorem C1_counterexample :
    ¬ ((check_service_permissions ⟨true, false, false, false⟩ (fun _ => true)).total_score
        = accessible_weight_total
            (check_service_permissions ⟨true, false, false, false⟩ (fun _ => true)).results) := by
  decide

/-- Claim C1 (amended): in a scan from a fresh engine state whose probe sequence repeats no operation, the returned total score equals the sum of the catalogue weights of exactly the operations recorded as accessible (an identifier absent from the weight table contributes 0 via lookup_score), and toggling the remote accessibility of one probed operation changes the total by exactly that operation's weight.  In runs with a duplicated probe the total instead counts the duplicate once per probe. -/
theorem C1_total_score_amended :
    (∀ calls : List ProbeCall,
        (calls.map (fun c => c.service_name)).Nodup →
        (run_probes init_state calls).total_score
          = accessible_weight_total (run_probes init_state calls).results)
    ∧ (∀ (names : List String) (o : String → Bool) (n : String),
        names.Nodup → n ∈ names →
        (run_probes init_state (mk_calls names (override o n true))).total_score
          = (run_probes init_state (mk_calls names (override o n false))).total_score
            + lookup_score n) := by
  constructor
  · intro calls hnd
    have h := run_probes_fresh calls init_state hnd (fun c _ => ⟨rfl, rfl⟩)
    rw [h.1, h.2]
    rfl
  · intro names o n hnd hmem
    have hnd1 : ((mk_calls names (override o n true)).map (fun c => c.service_name)).Nodup := by
      rw [map_name_mk_calls]; exact hnd
    have hnd2 : ((mk_calls names (override o n false)).map (fun c => c.service_name)).Nodup := by
      rw [map_name_mk_calls]; exact hnd
    have h1 := run_probes_fresh (mk_calls names (override o n true)) init_state hnd1
      (fun c _ => ⟨rfl, rfl⟩)
    have h2 := run_probes_fresh (mk_calls names (override o n false)) init_state hnd2
      (fun c _ => ⟨rfl, rfl⟩)
    rw [h1.1, h2.1, expected_total_mk_calls, expected_total_mk_calls,
      outcome_total_override names o n hnd hmem]
    omega

/-- Witness for C1_total_score_amended at a concrete two-operation run, with one operation accessible and one toggled. -/
theorem C1_witness :
    ((mk_calls ["iam_create_user", "s3_buckets"]
        (fun m => m == "iam_create_user")).map (fun c => c.service_name)).Nodup
    ∧ (run_probes init_state (mk_calls ["iam_create_user", "s3_buckets"]
          (fun m => m == "iam_create_user"))).total_score
        = accessible_weight_total
            (run_probes init_state (mk_calls ["iam_create_user", "s3_buckets"]
              (fun m => m == "iam_create_user"))).results
    ∧ (["iam_create_user", "s3_buckets"] : List String).Nodup
    ∧ "iam_create_user" ∈ (["iam_create_user", "s3_buckets"] : List String)
    ∧ (run_probes init_state (mk_calls ["iam_create_user", "s3_buckets"]
          (override (fun _ => false) "iam_create_user" true))).total_score
        = (run_probes init_state (mk_calls ["iam_create_user", "s3_buckets"]
              (override (fun _ => false) "iam_create_user" false))).total_score
          + lookup_score "iam_create_user" := by
  refine ⟨by decide, ?_, by decide, by decide, ?_⟩
  · exact C1_total_score_amended.1 _ (by decide)
  · exact C1_total_score_amended.2 _ _ _ (by decide) (by decide)

/-- Claim C2: account category assignment is a pure total function of the integer total score over the table [(50, critical), (30, high), (15, medium), (5, low), (0, minimal)]: it returns the first bucket, scanning from highest minScore to lowest, whose minScore is at most the score, and the minimal bucket when no bucket matches; in particular 49 maps to high, 50 to critical and 0 to minimal by instantiation. -/
theorem C2_account_category (score : Int) :
    get_account_category score =
      if 50 ≤ score then "critical"
      else if 30 ≤ score then "high"
      else if 15 ≤ score then "medium"
      else if 5 ≤ score then "low"
      else "minimal" := by
  unfold get_account_category account_categories
  by_cases h1 : (50 : Int) ≤ score <;>
    by_cases h2 : (30 : Int) ≤ score <;>
    by_cases h3 : (15 : Int) ≤ score <;>
    by_cases h4 : (5 : Int) ≤ score <;>
    by_cases h5 : (0 : Int) ≤ score <;>
    simp [List.find?, h1, h2, h3, h4, h5]

/-- Claim C3: for every flow, the assigned state follows the precedence over (accessible operations, matched escalation roles): READY when every required operation is accessible (regardless of role data), ESCALATION_NEEDED when some required operation is accessible and some role matches, BLOCKED_NO_ESCALATION when some required operation is accessible and no role matches, and BLOCKED when none is accessible. -/
theorem C3_flow_state (required escalation_roles accessible : List String)
    (escalation_result : Option RolesAnalysis) :
    (analyze_flow required escalation_roles accessible escalation_result).status =
      if ∀ s ∈ required, s ∈ accessible then "READY"
      else if (∃ s ∈ required, s ∈ accessible) ∧
          matched_escalation_roles escalation_result escalation_roles ≠ [] then
        "ESCALATION_NEEDED"
      else if ∃ s ∈ required, s ∈ accessible then "BLOCKED_NO_ESCALATION"
      else "BLOCKED" := by
  have hall : ((required.filter (fun s => accessible.contains s)).length = required.length)
      ↔ ∀ s ∈ required, s ∈ accessible := by
    constructor
    · intro h s hs
      have hs2 : List.Sublist (required.filter (fun s => accessible.contains s)) required :=
        List.filter_sublist required
      have he := hs2.eq_of_length h
      rw [← he] at hs
      exact List.elem_iff.mp (List.mem_filter.mp hs).2
    · intro h
      rw [List.filter_eq_self.mpr (fun a ha => List.elem_iff.mpr (h a ha))]
  have hex : (0 < (required.filter (fun s => accessible.contains s)).length)
      ↔ ∃ s ∈ required, s ∈ accessible := by
    rw [List.length_pos]
    constructor
    · intro h
      obtain ⟨a, ha⟩ := List.exists_mem_of_ne_nil _ h
      exact ⟨a, (List.mem_filter.mp ha).1, List.elem_iff.mp (List.mem_filter.mp ha).2⟩
    · rintro ⟨a, ha, hp⟩ hnil
      have hmm : a ∈ required.filter (fun s => accessible.contains s) :=
        List.mem_filter.mpr ⟨ha, List.elem_iff.mpr hp⟩
      rw [hnil] at hmm
      exact (List.not_mem_nil a) hmm
  unfold analyze_flow
  simp only [hall, hex]

/-- Claim C4: when a cached outcome exists with now - observedAt < 300 (the TTL), a probe returns exactly the cached outcome (same accessible flag and score) without contacting the remote platform - the result is independent of the probe's remote_success oracle; once the entry is 300 or more time units old it is not reused and the remote platform is contacted. -/
theorem C4_cache_ttl :
    (∀ (st : EngineState) (c : ProbeCall) (e : CacheEntry),
        List.lookup c.service_name st.service_cache = some e →
        c.now - e.timestamp < (cache_ttl : Int) →
        check_service st c =
          ⟨{ st with results := alist_insert st.results c.service_name e.result },
            e.result.score, false⟩)
    ∧ (∀ (st : EngineState) (c : ProbeCall) (e : CacheEntry),
        List.lookup c.service_name st.service_cache = some e →
        (cache_ttl : Int) ≤ c.now - e.timestamp →
        (check_service st c).used_remote = true) := by
  constructor
  · intro st c e hl ht
    exact check_service_cache_hit st c e hl ht
  · intro st c e hl ht
    have hv : is_cache_valid st.service_cache c.now c.service_name = false := by
      unfold is_cache_valid
      rw [hl]
      simpa using not_lt.mpr ht
    cases ho : c.remote_success
    · rw [check_service_miss_failure st c hv ho]
    · rw [check_service_miss_success st c hv ho]

/-- Witness for C4_cache_ttl: a 100-unit-old success entry is replayed verbatim even though the remote check would fail, and a 400-unit-old entry forces a remote attempt. -/
theorem C4_witness :
    (List.lookup "s3_buckets"
        ((⟨[("s3_buckets", ⟨⟨true, 30⟩, 100⟩)], [], 0, 0, 0, [], 0⟩ : EngineState)).service_cache
      = some ⟨⟨true, 30⟩, 100⟩)
    ∧ ((200 : Int) - 100 < (cache_ttl : Int))
    ∧ check_service (⟨[("s3_buckets", ⟨⟨true, 30⟩, 100⟩)], [], 0, 0, 0, [], 0⟩ : EngineState)
        ⟨"s3_buckets", 200, 1, false⟩
      = ⟨⟨[("s3_buckets", ⟨⟨true, 30⟩, 100⟩)], [], 0, 0, 0, [("s3_buckets", ⟨true, 30⟩)], 0⟩,
          30, false⟩
    ∧ ((cache_ttl : Int) ≤ (500 : Int) - 100)
    ∧ (check_service (⟨[("s3_buckets", ⟨⟨true, 30⟩, 100⟩)], [], 0, 0, 0, [], 0⟩ : EngineState)
        ⟨"s3_buckets", 500, 1, false⟩).used_remote = true := by
  refine ⟨rfl, by decide, ?_, by decide, ?_⟩
  · exact C4_cache_ttl.1 _ _ ⟨⟨true, 30⟩, 100⟩ rfl (by decide)
  · exact C4_cache_ttl.2 _ _ ⟨⟨true, 30⟩, 100⟩ rfl (by decide)

/-- Claim C5: for every filter selection and every assignment of per-operation remote outcomes, the scan still produces a report entry for every probed operation - no failure aborts the run, which is total by construction - and every operation whose remote checks fail is recorded as accessible = false with score 0, including the run in which every operation fails. -/
theorem C5_failure_isolation (f : Filters) (o : String → Bool) (n : String)
    (hmem : n ∈ probe_sequence (determine_flows_to_check f)) :
    (List.lookup n (check_service_permissions f o).results).isSome = true
    ∧ (o n = false →
        List.lookup n (check_service_permissions f o).results = some ⟨false, 0⟩) := by
  unfold check_service_permissions
  have hcov := run_probes_covers (probe_sequence (determine_flows_to_check f)) o
    init_state n hmem
  refine ⟨hcov, ?_⟩
  intro hn
  have hInv : zero_failure_invariant o init_state := by
    intro n' _
    exact ⟨Or.inl rfl, Or.inl rfl⟩
  have h2 := run_probes_zero_invariant (probe_sequence (determine_flows_to_check f)) o
    init_state hInv n hn
  rcases h2.2 with h | h
  · rw [h] at hcov
    simp at hcov
  · exact h

/-- Witness for C5_failure_isolation on the medium-filter scan in which every remote check fails. -/
theorem C5_witness :
    ("iam_users" ∈ probe_sequence (determine_flows_to_check ⟨false, false, true, false⟩))
    ∧ (List.lookup "iam_users"
        (check_service_permissions ⟨false, false, true, false⟩ (fun _ => false)).results
        = some ⟨false, 0⟩) := by
  refine ⟨by decide, ?_⟩
  exact (C5_failure_isolation ⟨false, false, true, false⟩ (fun _ => false) "iam_users"
    (by decide)).2 rfl

/-- Claim C6: the backoff delay before retry attempt n equals min(baseTimeout * backoffMultiplier ^ n, maxTimeout) with baseTimeout = 3, backoffMultiplier = 1.5 and maxTimeout = 30; it is monotonically non-decreasing in the attempt number and never exceeds maxTimeout. -/
theorem C6_backoff :
    (∀ n m : Nat, n ≤ m → calculate_backoff_delay n ≤ calculate_backoff_delay m)
    ∧ (∀ n : Nat, calculate_backoff_delay n ≤ (max_timeout : ℚ))
    ∧ (∀ n : Nat, calculate_backoff_delay n = min ((3 : ℚ) * (3 / 2 : ℚ) ^ n) 30) := by
  refine ⟨?_, ?_, ?_⟩
  · intro n m h
    unfold calculate_backoff_delay
    refine min_le_min ?_ le_rfl
    refine mul_le_mul_of_nonneg_left ?_ (by norm_num [base_timeout])
    exact pow_le_pow_right₀ (by norm_num [backoff_multiplier]) h
  · intro n
    exact min_le_right _ _
  · intro n
    rfl

/-- Witness for the monotonicity part of C6_backoff at attempts 1 and 2. -/
theorem C6_witness :
    (1 ≤ 2) ∧ calculate_backoff_delay 1 ≤ calculate_backoff_delay 2 :=
  ⟨by decide, C6_backoff.1 1 2 (by decide)⟩

/-- Claim C7 fails as stated: iam_attach_user_policy implies a write (it contains attach), yet with no recorded samples the timeout selected for its probe is 6, not the larger fixed timeout critical_timeout = 15, because check_service never passes its write classification to _get_optimized_timeout. -/
theorem C7_counterexample :
    strHasSub "attach" "iam_attach_user_policy" = true
    ∧ get_optimized_timeout [] "iam_attach_user_policy" = 6
    ∧ get_optimized_timeout [] "iam_attach_user_policy" ≠ (critical_timeout : Int) := by
  refine ⟨by decide, by decide, by decide⟩

/-- Claim C7 (amended): the fixed timeout actually applied on the probe path reaches the larger value only for identifiers containing create or delete (the create/delete/update/attach/put classification computed in check_service is discarded because _get_optimized_timeout is called without it and defaults to read); identifiers containing list, describe or get receive the small fixed timeout, every other identifier min(2 * baseTimeout, maxTimeout) = 6; and whenever at least one performance sample exists the timeout is instead min(int(3 * average of the recent elapsed times), maxTimeout). -/
theorem C7_timeout_amended (stats : List (String × List ℚ)) (service_name : String) :
    get_optimized_timeout stats service_name = amended_optimized_timeout stats service_name := by
  have hfix : ((get_adaptive_timeout service_name "read" : Nat) : Int)
      = amended_fixed_timeout service_name := by
    unfold get_adaptive_timeout amended_fixed_timeout
    simp only [show (("read" == "write") : Bool) = false from rfl, Bool.false_or]
    split_ifs <;> norm_num [critical_timeout, base_timeout, max_timeout]
  unfold get_optimized_timeout amended_optimized_timeout
  cases h : List.lookup service_name stats with
  | none => exact hfix
  | some ts =>
    by_cases he : ts.isEmpty <;> simp [he, hfix]

/-- Claim C8 fails as stated: for a flow with 3 required operations of which 2 are available the code reports completion 66 (truncation), while round(100 * 2 / 3) = 67. -/
theorem C8_counterexample :
    ((analyze_flow ["ec2_instances", "ec2_volumes", "ec2_snapshots"]
        ["AWSLambdaBasicExecutionRole", "IAMFullAccess"]
        ["ec2_instances", "ec2_volumes"] none).available_services.length = 2)
    ∧ ((["ec2_instances", "ec2_volumes", "ec2_snapshots"] : List String).length = 3)
    ∧ ((analyze_flow ["ec2_instances", "ec2_volumes", "ec2_snapshots"]
        ["AWSLambdaBasicExecutionRole", "IAMFullAccess"]
        ["ec2_instances", "ec2_volumes"] none).completion_percentage = 66)
    ∧ round ((100 * (2 : ℚ)) / 3) = 67 := by
  refine ⟨by decide, by decide, by decide, ?_⟩
  rw [round_eq]
  norm_num

/-- Claim C8 (amended): the reported completion percentage is the floor (Python int truncation of a non-negative value) of 100 * available count / required count, and 0 when the required-operation set is empty. -/
theorem C8_completion_amended (required escalation_roles accessible : List String)
    (escalation_result : Option RolesAnalysis) :
    (required = [] →
      (analyze_flow required escalation_roles accessible
          escalation_result).completion_percentage = 0)
    ∧ (required ≠ [] →
        ((analyze_flow required escalation_roles accessible
            escalation_result).completion_percentage : ℤ)
          = ⌊((100 : ℚ) *
                ((analyze_flow required escalation_roles accessible
                    escalation_result).available_services.length : ℚ))
              / (required.length : ℚ)⌋) := by
  constructor
  · intro h
    subst h
    rfl
  · intro h
    unfold analyze_flow
    simp only [List.isEmpty_iff]
    rw [if_neg h]
    rw [show ((100 : ℚ) * ((required.filter (fun s => accessible.contains s)).length : ℚ))
        = ((100 * (required.filter (fun s => accessible.contains s)).length : ℕ) : ℚ) by
      push_cast
      ring]
    rw [Rat.floor_natCast_div_natCast]
    exact Int.ofNat_tdiv _ _

/-- Witness for C8_completion_amended at a three-operation flow with one available operation. -/
theorem C8_witness :
    ((["ec2_instances", "ec2_volumes", "ec2_snapshots"] : List String) ≠ [])
    ∧ (((analyze_flow ["ec2_instances", "ec2_volumes", "ec2_snapshots"] []
          ["ec2_instances"] none).completion_percentage : ℤ)
        = ⌊((100 : ℚ) *
              ((analyze_flow ["ec2_instances", "ec2_volumes", "ec2_snapshots"] []
                  ["ec2_instances"] none).available_services.length : ℚ))
            / ((["ec2_instances", "ec2_volumes", "ec2_snapshots"] : List String).length : ℚ)⌋) :=
  ⟨by decide,
   (C8_completion_amended ["ec2_instances", "ec2_volumes", "ec2_snapshots"] []
      ["ec2_instances"] none).2 (by decide)⟩

/-- Claim C9: the liveness check's error classification marks the credential alive exactly on the throttling family (RequestLimitExceeded, ThrottlingException) and produces the terminal invalid-credential result exactly on the invalid-signature/unknown-identifier family (InvalidUserID.NotFound, SignatureDoesNotMatch, InvalidAccessKeyId); every other error yields a terminal outcome whose error marker differs from the invalid-credential one. -/
theorem C9_liveness_classification (code : String) :
    ((classify_liveness_error code).alive = true ↔ code ∈ throttling_codes)
    ∧ ((classify_liveness_error code).error = invalid_credentials_message ↔
        code ∈ invalid_credential_codes) := by
  unfold classify_liveness_error
  by_cases h1 : invalid_credential_codes.contains code
  · have hmem : code ∈ invalid_credential_codes := List.elem_iff.mp h1
    have hnt : code ∉ throttling_codes := by
      have hd : code = "InvalidUserID.NotFound" ∨ code = "SignatureDoesNotMatch"
          ∨ code = "InvalidAccessKeyId" := by
        simpa [invalid_credential_codes] using hmem
      rcases hd with h | h | h <;> rw [h] <;> decide
    simp [h1, hmem, hnt]
  · have hmem : code ∉ invalid_credential_codes := fun hc => h1 (List.elem_iff.mpr hc)
    by_cases h2 : throttling_codes.contains code
    · have hmt : code ∈ throttling_codes := List.elem_iff.mp h2
      simp [h1, h2, hmem, hmt]
      decide
    · have hmt : code ∉ throttling_codes := fun hc => h2 (List.elem_iff.mpr hc)
      simp [h1, h2, hmem, hmt]
      exact aws_error_ne_invalid code

/-- Claim C10: a failed probe writes the outcome accessible = false, score = 0 to the cache with the current timestamp and contacts the remote platform; any re-probe of the same operation less than 300 time units later returns that cached failure without any remote attempt, whatever the remote outcome would have been. -/
theorem C10_failed_probe_cached :
    ∀ (st : EngineState) (c : ProbeCall),
      is_cache_valid st.service_cache c.now c.service_name = false →
      c.remote_success = false →
      (List.lookup c.service_name (check_service st c).state.service_cache
          = some ⟨⟨false, 0⟩, c.now⟩)
      ∧ (check_service st c).used_remote = true
      ∧ (∀ c' : ProbeCall, c'.service_name = c.service_name →
          c'.now - c.now < (cache_ttl : Int) →
          check_service (check_service st c).state c' =
            ⟨{ (check_service st c).state with
                results := alist_insert (check_service st c).state.results
                  c'.service_name (⟨false, 0⟩ : ProbeResult) },
              0, false⟩) := by
  intro st c hv ho
  rw [check_service_miss_failure st c hv ho]
  refine ⟨?_, rfl, ?_⟩
  · exact lookup_alist_insert_self _ _ _
  · intro c' hn ht
    have hl : List.lookup c'.service_name
        (alist_insert (update_performance_stats st c.service_name c.elapsed false).service_cache
          c.service_name ⟨⟨false, 0⟩, c.now⟩) = some ⟨⟨false, 0⟩, c.now⟩ := by
      rw [hn, ups_cache]
      exact lookup_alist_insert_self _ _ _
    exact check_service_cache_hit _ c' ⟨⟨false, 0⟩, c.now⟩ hl ht

/-- Witness for C10_failed_probe_cached: a failed probe at time 0 is replayed from the cache at time 100 even though the remote check would then succeed. -/
theorem C10_witness :
    (is_cache_valid init_state.service_cache 0 "s3_buckets" = false)
    ∧ (List.lookup "s3_buckets"
        (check_service init_state ⟨"s3_buckets", 0, 1, false⟩).state.service_cache
        = some ⟨⟨false, 0⟩, 0⟩)
    ∧ ((100 : Int) - 0 < (cache_ttl : Int))
    ∧ check_service (check_service init_state ⟨"s3_buckets", 0, 1, false⟩).state
        ⟨"s3_buckets", 100, 1, true⟩
      = ⟨{ (check_service init_state ⟨"s3_buckets", 0, 1, false⟩).state with
            results := alist_insert
              (check_service init_state ⟨"s3_buckets", 0, 1, false⟩).state.results
              "s3_buckets" (⟨false, 0⟩ : ProbeResult) },
          0, false⟩ := by
  refine ⟨rfl, ?_, by decide, ?_⟩
  · exact (C10_failed_probe_cached init_state ⟨"s3_buckets", 0, 1, false⟩ rfl rfl).1
  · exact (C10_failed_probe_cached init_state ⟨"s3_buckets", 0, 1, false⟩ rfl rfl).2.2
      ⟨"s3_buckets", 100, 1, true⟩ rfl (by decide)

end Nyx
